import Mathlib

/-!
Verification development for the Shopify store data resolver
(src/app/services/shopify.service.ts).

The service's effectful fetch loops are embedded shallowly: the upstream
GraphQL endpoint is modelled as a finite script of responses (one response
consumed per executeGraphQL call) or, for the page-ceiling-bounded inventory
loop, as a page-indexed oracle function.  JavaScript Maps are modelled as
association lists with last-write-wins lookup; JavaScript string truthiness
(undefined or empty string is falsy) is modelled explicitly.
-/

/-! ## String machinery (structural, over `List Char`, so proofs can compute) -/

/-- Does `l` start with the pattern `pat`? -/
def listStartsWith : List Char → List Char → Bool
  | [], _ => true
  | _ :: _, [] => false
  | p :: ps, c :: cs => decide (p = c) && listStartsWith ps cs

/-- Replace the first occurrence of `pat` in the list by nothing, as in the
JavaScript expression `id.replace(pattern, "")` with a string pattern
(which replaces only the first occurrence). -/
def replaceFirstL (pat : List Char) : List Char → List Char
  | [] => []
  | c :: cs =>
    if listStartsWith pat (c :: cs) then List.drop pat.length (c :: cs)
    else c :: replaceFirstL pat cs

/-- Split a character list on a separator character, keeping empty segments,
as in the JavaScript expression `id.split(sep)`. -/
def splitOnCharL (sep : Char) : List Char → List (List Char)
  | [] => [[]]
  | c :: cs =>
    if decide (c = sep) then [] :: splitOnCharL sep cs
    else
      match splitOnCharL sep cs with
      | t :: ts => (c :: t) :: ts
      | [] => [[c]]

/-- String-level wrapper for `replaceFirstL`: models `s.replace(pat, "")`. -/
def replaceFirstS (s pat : String) : String :=
  String.mk (replaceFirstL pat.data s.data)

/-- The trailing segment of `s` after splitting on `/`: models
`s.split('/')` followed by taking the last element (the JS guard
`idParts.length > 0` is always true since split never returns an empty
array; the fallback branch is unreachable). -/
def numericTailS (s : String) : String :=
  match (splitOnCharL '/' s.data).getLast? with
  | some t => String.mk t
  | none => s

/-- Substring test on lists: models JavaScript `s.includes(pat)`. -/
def containsSubL (pat : List Char) : List Char → Bool
  | [] => listStartsWith pat []
  | c :: cs => listStartsWith pat (c :: cs) || containsSubL pat cs

/-- Substring test on strings: models `errorMessage.includes(pattern)`. -/
def containsSub (s pat : String) : Bool :=
  containsSubL pat.data s.data

/-! ## JavaScript truthiness for optional strings -/

/-- JavaScript truthiness of a possibly-absent string value: `undefined`
(`none`) and the empty string are falsy. -/
def jsTruthy : Option String → Bool
  | none => false
  | some s => !(decide (s = ""))

/-- Sequencing of lookups mirroring `x = a; if (!x) x = b;`: the result is
`a` when truthy, otherwise `b`. -/
def orElseT (a b : Option String) : Option String :=
  if jsTruthy a then a else b

/-- First truthy element of a lookup chain; when none is truthy the result
is the final element (the last value assigned in the JavaScript chain). -/
def firstHit : List (Option String) → Option String
  | [] => none
  | [x] => x
  | x :: y :: rest => if jsTruthy x then x else firstHit (y :: rest)

/-! ## JavaScript `Map<string, string>` as an association list -/

/-- A JavaScript `Map<string, string>`: modelled as an association list
where newer insertions are prepended, so lookup finds the newest binding
(last-write-wins, as for `Map.set`). -/
abbrev Store := List (String × String)

/-- The empty media map. -/
def storeEmpty : Store := []

/-- `map.set(k, v)`: prepend, so the newest binding shadows older ones. -/
def storeSet (st : Store) (k v : String) : Store := (k, v) :: st

/-- `map.get(k)`: first (newest) binding wins; `none` models `undefined`. -/
def storeGet (st : Store) (k : String) : Option String :=
  match st with
  | [] => none
  | (k', v) :: rest => if k' = k then some v else storeGet rest k

/-! ## GraphQL envelope and scripted upstream responses -/

/-- One entry of a GraphQL `errors` payload: the `message` field and the
optional `extensions.code` field. -/
structure GqlErr where
  code : Option String
  message : String
deriving DecidableEq

/-- The throttling check `e.extensions?.code === 'THROTTLED'`. -/
def isThrottled (e : GqlErr) : Bool :=
  decide (e.code = some "THROTTLED")

/-- Rendering of an errors payload into the thrown message, modelling
`JSON.stringify(response.errors)` to the extent that each error's message
text appears verbatim in the rendered string. -/
def renderErrs (errs : List GqlErr) : String :=
  String.intercalate "; " (errs.map GqlErr.message)

/-- One page of a cursor-paginated connection: the `nodes`/`edges` items
plus `pageInfo.hasNextPage` and `pageInfo.endCursor`. -/
structure PageData (α : Type) where
  items : List α
  hasNextPage : Bool
  endCursor : Option String
deriving DecidableEq

/-- One scripted upstream response to an `executeGraphQL` call:
a transport failure (`fetch` rejection or non-ok status, which
`executeGraphQL` turns into a thrown error), a GraphQL `errors` payload,
or a successful `data` payload. -/
inductive Resp (α : Type) where
  | transportErr (msg : String)
  | gqlErrors (errs : List GqlErr)
  | ok (d : α)
deriving DecidableEq

/-- Outcome of a fetch operation: a returned value, a thrown error
(propagated to the caller), or exhaustion of the response script while the
loop still wanted another page (the loop is still running). -/
inductive FetchOut (α : Type) where
  | ok (v : α)
  | err (msg : String)
  | noResp
deriving DecidableEq

/-! ## Media nodes and the media index (fetchAllMedia, lines 131-158) -/

/-- A node of the media connection, covering the `MediaImage`, `Video`,
`ExternalVideo` and `Model3d` fragments: `imageUrl` models
`media.image?.url`, `sources` the list of `sources[i].url`, and
`embeddedUrl` the external-video URL. -/
structure MediaNode where
  id : Option String
  imageUrl : Option String
  sources : List String
  embeddedUrl : Option String
deriving DecidableEq

/-- URL extraction precedence from fetchAllMedia: direct image URL if
truthy, else the first source URL whenever sources is non-empty (even if
that URL is itself empty), else the embedded URL if truthy. -/
def urlOfMedia (m : MediaNode) : Option String :=
  if jsTruthy m.imageUrl then m.imageUrl
  else
    match m.sources with
    | u :: _ => some u
    | [] => if jsTruthy m.embeddedUrl then m.embeddedUrl else none

/-- Index insertion for one media node (fetchAllMedia lines 131-158): skip
nodes without a truthy id or truthy URL; otherwise store the URL under the
full id, the id with the first `gid://` occurrence removed, and the
trailing numeric segment. -/
def insertMedia (st : Store) (m : MediaNode) : Store :=
  match m.id with
  | none => st
  | some mid =>
    if mid = "" then st
    else
      match urlOfMedia m with
      | none => st
      | some url =>
        if url = "" then st
        else
          storeSet (storeSet (storeSet st mid url) (replaceFirstS mid "gid://") url)
            (numericTailS mid) url

/-- The lookup keys a media node writes into the index (empty when the node
is skipped by `insertMedia`). -/
def mediaKeys (m : MediaNode) : List String :=
  match m.id with
  | none => []
  | some mid =>
    if mid = "" then []
    else
      match urlOfMedia m with
      | none => []
      | some url =>
        if url = "" then []
        else [mid, replaceFirstS mid "gid://", numericTailS mid]

/-- Does the node write the key `k`? -/
def keysContain (m : MediaNode) (k : String) : Bool :=
  (mediaKeys m).any (fun x => decide (x = k))

/-- The media index built from a sequence of media nodes in fetch order. -/
def buildMediaIndex (nodes : List MediaNode) : Store :=
  nodes.foldl insertMedia storeEmpty

/-- The pagination loop of fetchAllMedia (lines 115-171): each page's nodes
are inserted into the index; any `errors` payload or transport failure is
thrown (there is no throttle handling in this loop). -/
def mediaLoop (cache : Store) (after : Option String) :
    List (Resp (PageData MediaNode)) → FetchOut Store × List (Resp (PageData MediaNode))
  | [] => (FetchOut.noResp, [])
  | Resp.transportErr m :: rs =>
    (FetchOut.err ("Shopify GraphQL query failed: " ++ m), rs)
  | Resp.gqlErrors errs :: rs =>
    (FetchOut.err ("GraphQL Error: " ++ renderErrs errs), rs)
  | Resp.ok pd :: rs =>
    let cache2 := pd.items.foldl insertMedia cache
    if pd.hasNextPage then mediaLoop cache2 pd.endCursor rs
    else (FetchOut.ok cache2, rs)

/-- Result of a fetchAllMedia call: the new value of the module-level
`globalMediaCache`, the value returned (or outcome), and the unconsumed
part of the response script (responses not issued as network requests). -/
structure MediaFetchResult where
  newGlobal : Option Store
  result : FetchOut Store
  leftover : List (Resp (PageData MediaNode))
deriving DecidableEq

/-- fetchAllMedia (lines 63-183): return the global cache if present
without any request; otherwise run the pagination loop; on success assign
the global cache and return the index; on any thrown error return an empty
map without assigning the global cache. -/
def fetchAllMedia (globalCache : Option Store) (script : List (Resp (PageData MediaNode))) :
    MediaFetchResult :=
  match globalCache with
  | some c => ⟨some c, FetchOut.ok c, script⟩
  | none =>
    match mediaLoop storeEmpty none script with
    | (FetchOut.ok c, rs) => ⟨some c, FetchOut.ok c, rs⟩
    | (FetchOut.err _, rs) => ⟨none, FetchOut.ok storeEmpty, rs⟩
    | (FetchOut.noResp, rs) => ⟨none, FetchOut.noResp, rs⟩

/-! ## Metafield reference resolution (processMetafields, lines 849-1036) -/

/-- A product image node: `id` may be absent (skipped) and `url` is stored
as-is. -/
structure ProductImage where
  id : Option String
  url : String
deriving DecidableEq

/-- Adding one product image to the per-product media map (lines 869-876):
a truthy id contributes the full id and the `gid://`-stripped id (no
numeric-only key for images). -/
def addImage (st : Store) (img : ProductImage) : Store :=
  match img.id with
  | none => st
  | some iid =>
    if iid = "" then st
    else storeSet (storeSet st iid img.url) (replaceFirstS iid "gid://") img.url

/-- A metafield, with the fields the service adds during processing:
`originalValue` and `processed` are absent (`none` / `false`) on
metafields as returned by the API. -/
structure Metafield where
  ns : String
  key : String
  value : String
  type : String
  originalValue : Option String
  processed : Bool
deriving DecidableEq

/-- Parses a quoted JSON string literal containing no escapes or inner
quotes. -/
def parseQuotedL (l : List Char) : Option String :=
  match l with
  | '"' :: rest =>
    match rest.getLast? with
    | some '"' =>
      match rest.dropLast with
      | inner =>
        if inner.any (fun c => decide (c = '"') || decide (c = '\\')) then none
        else some (String.mk inner)
    | _ => none
  | _ => none

/-- Models `JSON.parse` restricted to the shape the service feeds it: a
JSON array of plain string literals (no whitespace, no escapes).  Returns
`none` for every other input, modelling the thrown-and-caught parse
failure. -/
def parseJsonStrings (s : String) : Option (List String) :=
  match s.data with
  | '[' :: rest =>
    match rest.getLast? with
    | some ']' =>
      match rest.dropLast with
      | inner =>
        if decide (inner = []) then some []
        else (splitOnCharL ',' inner).mapM parseQuotedL
    | _ => none
  | _ => none

/-- Models `JSON.stringify` on an array of strings containing no characters
needing escapes. -/
def stringifyStrings (xs : List String) : String :=
  "[" ++ String.intercalate "," (xs.map (fun x => "\"" ++ x ++ "\"")) ++ "]"

/-- The shared lookup chain of processMetafields (scalar branch lines
984-1019, identical in the list branch lines 921-962): try the local
per-product map with the id as-is; if falsy and a global/external cache is
present, try the cache with the id as-is, then `gid://`-stripped, then
numeric-only; if still falsy, try the local map with the stripped and then
the numeric-only id. -/
def lookupChain (mediaMap : Store) (mediaCache : Option Store) (mediaId : String) :
    Option String :=
  let cleanId := replaceFirstS mediaId "gid://"
  let numericId := numericTailS mediaId
  let afterCache :=
    match mediaCache with
    | some c =>
      orElseT (storeGet mediaMap mediaId)
        (orElseT (storeGet c mediaId)
          (orElseT (storeGet c cleanId) (storeGet c numericId)))
    | none => storeGet mediaMap mediaId
  orElseT afterCache (orElseT (storeGet mediaMap cleanId) (storeGet mediaMap numericId))

/-- Per-element resolution in the `list.file_reference` branch: the first
truthy hit of the lookup chain, or the original id when every lookup is
falsy (lines 919-963). -/
def resolveListElem (mediaMap : Store) (mediaCache : Option Store) (imageId : String) :
    String :=
  match lookupChain mediaMap mediaCache imageId with
  | some u => if u = "" then imageId else u
  | none => imageId

/-- Processing of one metafield (the body of the `metafields.map` callback,
lines 911-1035): list references parse the value, resolve each element and
mark the field processed, returning it unmodified on parse failure; scalar
references substitute the first truthy lookup hit and mark the field
processed, returning it unmodified on a miss; every other field is
returned unchanged. -/
def processMetafield (mediaMap : Store) (mediaCache : Option Store) (m : Metafield) :
    Metafield :=
  if m.type = "list.file_reference" ∧ m.value ≠ "" then
    match parseJsonStrings m.value with
    | some ids =>
      { m with
        originalValue := some m.value
        value := stringifyStrings (ids.map (resolveListElem mediaMap mediaCache))
        processed := true }
    | none => m
  else if m.type = "file_reference" ∧ m.value ≠ "" then
    match lookupChain mediaMap mediaCache m.value with
    | some u =>
      if u = "" then m
      else { m with originalValue := some m.value, value := u, processed := true }
    | none => m
  else m

/-- processMetafields (lines 849-1036): build the per-product media map
from the product's images (full and stripped keys) and media items (all
three keys), pick the external cache or the global cache, then process
each metafield. -/
def processMetafields (metafields : List Metafield) (productImages : List ProductImage)
    (productMedia : List MediaNode) (externalMediaCache : Option Store)
    (globalMediaCache : Option Store) : List Metafield :=
  if metafields.length = 0 then []
  else
    let mediaMap := productMedia.foldl insertMedia (productImages.foldl addImage storeEmpty)
    let mediaCache :=
      match externalMediaCache with
      | some c => some c
      | none => globalMediaCache
    metafields.map (processMetafield mediaMap mediaCache)

/-- Modelled from the spec: the lookup order claim C2 asserts for scalar
references, namely the raw id tried in the local index with all three key
forms (as-is, stripped, numeric) before any global lookup.  Used only to
compare the spec's claimed order against the source's order. -/
def lookupChainSpecOrder (mediaMap : Store) (mediaCache : Option Store) (mediaId : String) :
    Option String :=
  let cleanId := replaceFirstS mediaId "gid://"
  let numericId := numericTailS mediaId
  let localTry :=
    firstHit [storeGet mediaMap mediaId, storeGet mediaMap cleanId, storeGet mediaMap numericId]
  match mediaCache with
  | some c =>
    orElseT localTry
      (firstHit [storeGet c mediaId, storeGet c cleanId, storeGet c numericId])
  | none => localTry

/-! ## Generic throwing pagination loop and the product fetch strategies -/

/-- The pagination loop shared by fetchAllProducts (lines 519-544), the
basic phase of fetchProductsSimplified (lines 318-343), fetchAllPages,
fetchMetaobjects and fetchAllFiles: accumulate page items in order,
advance the cursor, and throw on any transport failure or `errors`
payload. -/
def gqlPaginate {α : Type} (acc : List α) (after : Option String) :
    List (Resp (PageData α)) → FetchOut (List α) × List (Resp (PageData α))
  | [] => (FetchOut.noResp, [])
  | Resp.transportErr m :: rs =>
    (FetchOut.err ("Shopify GraphQL query failed: " ++ m), rs)
  | Resp.gqlErrors errs :: rs =>
    (FetchOut.err ("GraphQL Error: " ++ renderErrs errs), rs)
  | Resp.ok pd :: rs =>
    let acc2 := acc ++ pd.items
    if pd.hasNextPage then gqlPaginate acc2 pd.endCursor rs
    else (FetchOut.ok acc2, rs)

/-- The cost-limit test of fetchAllProducts' catch block (lines 553-555):
the thrown error's message contains `MAX_COST_EXCEEDED` or `cost limit`. -/
def isCostMsg (m : String) : Bool :=
  containsSub m "MAX_COST_EXCEEDED" || containsSub m "cost limit"

/-- A product variant: `metafields` is absent on variants from the basic
query and populated by detail enrichment. -/
structure SVariant where
  id : String
  sku : String
  metafields : Option (List Metafield)
deriving DecidableEq

/-- A product: `metafields` and `media` are absent on products from the
basic query and populated by detail enrichment. -/
structure SProduct where
  id : String
  title : String
  handle : String
  variants : List SVariant
  metafields : Option (List Metafield)
  media : Option (List MediaNode)
deriving DecidableEq

/-- The `data.product` payload of the per-product details query. -/
structure PDetail where
  metafields : List Metafield
  media : List MediaNode
  variants : List SVariant
deriving DecidableEq

/-- Merging a detail payload into a basic product (lines 362-383): spread
the metafields and media over the basic record and, for each basic
variant, adopt the metafields of the detailed variant with the same id
when present. -/
def enrich (p : SProduct) (d : PDetail) : SProduct :=
  { p with
    metafields := some d.metafields
    media := some d.media
    variants := p.variants.map (fun v =>
      match d.variants.find? (fun w => decide (w.id = v.id)) with
      | some w =>
        match w.metafields with
        | some mfs => { v with metafields := some mfs }
        | none => v
      | none => v) }

/-- One step of the detail-enrichment phase (lines 350-393): a transport
failure is caught, an `errors` payload is checked explicitly, and a null
`data.product` throws and is caught — in all three cases the basic product
is kept unchanged; otherwise it is enriched. -/
def detailStep (p : SProduct) : Resp (Option PDetail) → SProduct
  | Resp.transportErr _ => p
  | Resp.gqlErrors _ => p
  | Resp.ok none => p
  | Resp.ok (some d) => enrich p d

/-- The detail-enrichment loop: one details query per enumerated product,
in order, each consuming one scripted response; products survive every
per-item failure. -/
def enrichLoop : List SProduct → List (Resp (Option PDetail)) →
    FetchOut (List SProduct) × List (Resp (Option PDetail))
  | [], rs => (FetchOut.ok [], rs)
  | _ :: _, [] => (FetchOut.noResp, [])
  | p :: ps, r :: rs =>
    match enrichLoop ps rs with
    | (FetchOut.ok qs, rest) => (FetchOut.ok (detailStep p r :: qs), rest)
    | (o, rest) => (o, rest)

/-- fetchProductsSimplified (lines 189-406): enumerate all products with
the basic paginated query (throwing on any error, rethrown by the outer
catch), then enrich each product with one details query. -/
def fetchProductsSimplified (basicScript : List (Resp (PageData SProduct)))
    (detailScript : List (Resp (Option PDetail))) : FetchOut (List SProduct) :=
  match gqlPaginate [] none basicScript with
  | (FetchOut.ok ps, _) => (enrichLoop ps detailScript).1
  | (FetchOut.err m, _) => FetchOut.err m
  | (FetchOut.noResp, _) => FetchOut.noResp

/-- fetchAllProducts (lines 411-562): try the rich single-pass paginated
query; if it throws and the message matches the cost-limit signature, fall
back to fetchProductsSimplified; rethrow any other error. -/
def fetchAllProducts (richScript : List (Resp (PageData SProduct)))
    (basicScript : List (Resp (PageData SProduct)))
    (detailScript : List (Resp (Option PDetail))) : FetchOut (List SProduct) :=
  match gqlPaginate [] none richScript with
  | (FetchOut.ok ps, _) => FetchOut.ok ps
  | (FetchOut.err m, _) =>
    if isCostMsg m then fetchProductsSimplified basicScript detailScript
    else FetchOut.err m
  | (FetchOut.noResp, _) => FetchOut.noResp

/-! ## Collections and per-collection products (lines 1183-1294, 1609-1682) -/

/-- The pagination loop of fetchAllCollections (lines 1225-1253): a
THROTTLED errors payload waits and retries the same page with the same
cursor; any other errors payload throws; a null `data` or
`data.collections` throws the invalid-structure error. -/
def collLoop {α : Type} (acc : List α) (after : Option String) :
    List (Resp (Option (PageData α))) → FetchOut (List α) × List (Resp (Option (PageData α)))
  | [] => (FetchOut.noResp, [])
  | Resp.transportErr m :: rs =>
    (FetchOut.err ("Shopify GraphQL query failed: " ++ m), rs)
  | Resp.gqlErrors errs :: rs =>
    if errs.any isThrottled then collLoop acc after rs
    else (FetchOut.err ("GraphQL Error: " ++ renderErrs errs), rs)
  | Resp.ok none :: rs =>
    (FetchOut.err "Invalid response structure from Shopify API for collections.", rs)
  | Resp.ok (some pd) :: rs =>
    let acc2 := acc ++ pd.items
    if pd.hasNextPage then collLoop acc2 pd.endCursor rs
    else (FetchOut.ok acc2, rs)

/-- fetchAllCollections (lines 1183-1261): run the loop; the outer catch
logs and rethrows, so thrown errors propagate. -/
def fetchAllCollections {α : Type} (script : List (Resp (Option (PageData α)))) :
    FetchOut (List α) :=
  (collLoop [] none script).1

/-- The pagination loop of fetchProductsForCollection (lines 1637-1673):
THROTTLED retries the same page; other errors payloads throw; a missing
collection or missing products connection ends the loop normally with the
items accumulated so far. -/
def pfcLoop {α : Type} (acc : List α) (after : Option String) :
    List (Resp (Option (PageData α))) → FetchOut (List α) × List (Resp (Option (PageData α)))
  | [] => (FetchOut.noResp, [])
  | Resp.transportErr m :: rs =>
    (FetchOut.err ("Shopify GraphQL query failed: " ++ m), rs)
  | Resp.gqlErrors errs :: rs =>
    if errs.any isThrottled then pfcLoop acc after rs
    else (FetchOut.err ("GraphQL Error fetching products for collection: " ++ renderErrs errs), rs)
  | Resp.ok none :: rs => (FetchOut.ok acc, rs)
  | Resp.ok (some pd) :: rs =>
    let acc2 := acc ++ pd.items
    if pd.hasNextPage then pfcLoop acc2 pd.endCursor rs
    else (FetchOut.ok acc2, rs)

/-- fetchProductsForCollection (lines 1609-1682): run the loop; the outer
catch swallows every thrown error and returns an empty list. -/
def fetchProductsForCollection {α : Type} (script : List (Resp (Option (PageData α)))) :
    FetchOut (List α) :=
  match pfcLoop [] none script with
  | (FetchOut.err _, _) => FetchOut.ok []
  | (o, _) => o

/-! ## Inventory levels (fetchInventoryLevels, lines 567-670) -/

/-- The `location` object of an inventory-level edge. -/
structure InvLocation where
  id : String
  name : String
deriving DecidableEq

/-- The `variant.product` object reachable from an inventory item. -/
structure InvProductRef where
  id : String
deriving DecidableEq

/-- The `variant` object reachable from an inventory item. -/
structure InvVariantRef where
  id : String
  product : Option InvProductRef
deriving DecidableEq

/-- The `inventoryItem` object of an inventory-level edge. -/
structure InvItemRef where
  id : String
  sku : String
  variant : Option InvVariantRef
deriving DecidableEq

/-- One inventory-level node with its optional nested objects. -/
structure InvNode where
  id : String
  available : Int
  location : Option InvLocation
  inventoryItem : Option InvItemRef
deriving DecidableEq

/-- The processed inventory record built from an edge (lines 631-640),
with optional-chaining (`?.`) projections modelled by `Option`. -/
structure InvRec where
  inventoryLevelId : String
  available : Int
  locationId : Option String
  locationName : Option String
  inventoryItemId : Option String
  sku : Option String
  variantId : Option String
  productId : Option String
deriving DecidableEq

/-- Projection of one edge node into the processed record. -/
def toInvRec (n : InvNode) : InvRec :=
  { inventoryLevelId := n.id
    available := n.available
    locationId := n.location.map InvLocation.id
    locationName := n.location.map InvLocation.name
    inventoryItemId := n.inventoryItem.map InvItemRef.id
    sku := n.inventoryItem.map InvItemRef.sku
    variantId := n.inventoryItem.bind (fun it => it.variant.map InvVariantRef.id)
    productId := n.inventoryItem.bind (fun it =>
      it.variant.bind (fun v => v.product.map InvProductRef.id)) }

/-- One page of the inventory-levels connection. -/
structure InvPage where
  edges : List InvNode
  hasNextPage : Bool
  endCursor : Option String
deriving DecidableEq

/-- The fetchInventoryLevels while loop (lines 610-662), fuelled by the
remaining page budget (`maxPages - pageCount`).  `pageCount` is
incremented at the top of each iteration; the page response is fetched
from a page-indexed oracle; any thrown error (transport or `errors`
payload) is caught inside the loop, which then simply stops; a null
`data.inventoryLevels` yields no items and a false `hasNextPage`.  Returns
the accumulated records, the final `hasNextPage` flag and the final
`pageCount`. -/
def invLoop (oracle : Nat → Resp (Option InvPage)) (acc : List InvRec)
    (pageCount : Nat) : Nat → Option String → List InvRec × Bool × Nat
  | 0, _ => (acc, true, pageCount)
  | fuel + 1, _ =>
    let pc := pageCount + 1
    match oracle pc with
    | Resp.transportErr _ => (acc, false, pc)
    | Resp.gqlErrors _ => (acc, false, pc)
    | Resp.ok none => (acc, false, pc)
    | Resp.ok (some pd) =>
      let acc2 := acc ++ pd.edges.map toInvRec
      if pd.hasNextPage then invLoop oracle acc2 pc fuel pd.endCursor
      else (acc2, false, pc)

/-- Result of fetchInventoryLevels: the returned records plus the final
loop state and whether the truncation warning (line 664-666) fired. -/
structure InvResult where
  records : List InvRec
  hasNextAtEnd : Bool
  pageCount : Nat
  truncWarning : Bool
deriving DecidableEq

/-- fetchInventoryLevels (lines 567-670): run the loop with the hard
ceiling `maxPages = 50`; warn about truncation when the ceiling was
reached with `hasNextPage` still true; always return the accumulated
records. -/
def fetchInventoryLevels (oracle : Nat → Resp (Option InvPage)) : InvResult :=
  match invLoop oracle [] 0 50 none with
  | (recs, hn, pc) => ⟨recs, hn, pc, decide (pc = 50) && hn⟩

/-! ## Concrete fixtures used by witnesses and counterexamples -/

/-- A media image asset with numeric id 42. -/
def mediaNodeA : MediaNode :=
  ⟨some "gid://shopify/MediaImage/42", some "https://x/42.png", [], none⟩

/-- A video asset whose numeric id also ends in 42 (numeric-key collision
with `mediaNodeA`). -/
def mediaNodeB : MediaNode :=
  ⟨some "gid://shopify/Video/42", none, ["https://x/42.mp4"], none⟩

/-- A product-local video whose numeric id is 7. -/
def videoNodeCx : MediaNode :=
  ⟨some "gid://shopify/Video/7", none, ["https://vid/7.mp4"], none⟩

/-- A store-wide media image with numeric id 7. -/
def imgNodeCx : MediaNode :=
  ⟨some "gid://shopify/MediaImage/7", some "https://img/7.png", [], none⟩

/-- A global media index holding only `imgNodeCx`. -/
def globalCx : Store := buildMediaIndex [imgNodeCx]

/-- A per-product media map holding only `videoNodeCx`. -/
def localCx : Store := buildMediaIndex [videoNodeCx]

/-- A scalar file-reference metafield pointing at media image 7. -/
def mfCx : Metafield :=
  ⟨"custom", "photo", "gid://shopify/MediaImage/7", "file_reference", none, false⟩

/-- A list file-reference metafield over media images 7 and 8. -/
def listMfCx : Metafield :=
  ⟨"custom", "gallery", "[\"gid://shopify/MediaImage/7\",\"gid://shopify/MediaImage/8\"]",
    "list.file_reference", none, false⟩

/-- A list file-reference metafield whose value is not valid JSON. -/
def badMfCx : Metafield :=
  ⟨"custom", "gallery", "not json", "list.file_reference", none, false⟩

/-- A throttling error entry. -/
def thrGqlErr : GqlErr := ⟨some "THROTTLED", "Throttled"⟩

/-- A media script failing on the very first request. -/
def failScript : List (Resp (PageData MediaNode)) := [Resp.transportErr "net down"]

/-- A media script delivering one final page holding `mediaNodeA`. -/
def okMediaScript : List (Resp (PageData MediaNode)) :=
  [Resp.ok ⟨[mediaNodeA], false, none⟩]

/-- A media script that throttles once and then delivers a final page. -/
def mediaThrScript : List (Resp (PageData MediaNode)) :=
  [Resp.gqlErrors [thrGqlErr], Resp.ok ⟨[mediaNodeA], false, none⟩]

/-- A basic product without variants. -/
def pA : SProduct := ⟨"gid://shopify/Product/1", "Alpha", "alpha", [], none, none⟩

/-- A basic product with one variant. -/
def pB : SProduct :=
  ⟨"gid://shopify/Product/2", "Beta", "beta",
    [⟨"gid://shopify/ProductVariant/21", "SKU21", none⟩], none, none⟩

/-- A detail payload for `pB`. -/
def dCx : PDetail :=
  ⟨[mfCx], [imgNodeCx], [⟨"gid://shopify/ProductVariant/21", "SKU21", some [mfCx]⟩]⟩

/-- A rich-query script failing with a cost-limit error message. -/
def richCostScript : List (Resp (PageData SProduct)) :=
  [Resp.gqlErrors [⟨none, "Query cost exceeded: MAX_COST_EXCEEDED"⟩]]

/-- A rich-query script failing with an unrelated error. -/
def richOtherScript : List (Resp (PageData SProduct)) :=
  [Resp.gqlErrors [⟨none, "boom"⟩]]

/-- A basic-query script enumerating `pA` and `pB` in one final page. -/
def basicCx : List (Resp (PageData SProduct)) := [Resp.ok ⟨[pA, pB], false, none⟩]

/-- A detail script where `pA`'s details query fails and `pB`'s succeeds. -/
def detailCx : List (Resp (Option PDetail)) :=
  [Resp.gqlErrors [⟨none, "detail fail"⟩], Resp.ok (some dCx)]

/-- An inventory oracle that always reports another page. -/
def alwaysInvOracle : Nat → Resp (Option InvPage) :=
  fun _ => Resp.ok (some ⟨[], true, none⟩)

/-- An inventory node fixture. -/
def invNodeCx : InvNode := ⟨"gid://shopify/InventoryLevel/1", 5, none, none⟩

/-- An inventory oracle delivering one page and then a transport failure. -/
def invOracleCx : Nat → Resp (Option InvPage) :=
  fun n =>
    if n = 1 then Resp.ok (some ⟨[invNodeCx], true, some "c1"⟩)
    else Resp.transportErr "network down"

/-- A products script of sixty pages each reporting another page to come. -/
def alwaysProductPages : List (Resp (PageData SProduct)) :=
  List.replicate 60 (Resp.ok ⟨[], true, none⟩)

/-! ## Helper lemmas about the media index -/

/-- Lookup after three insertions of the same value finds that value under
any of the three keys. -/
theorem tripleInsertGet (st : Store) (u k1 k2 k3 k : String)
    (h : k1 = k ∨ k2 = k ∨ k3 = k) :
    storeGet (storeSet (storeSet (storeSet st k1 u) k2 u) k3 u) k = some u := by
  by_cases h3 : k3 = k
  · simp [storeGet, storeSet, h3]
  · by_cases h2 : k2 = k
    · simp [storeGet, storeSet, h3, h2]
    · have h1 : k1 = k := by tauto
      simp [storeGet, storeSet, h3, h2, h1]

/-- An inserted media node makes each of its keys resolve to its URL. -/
theorem insertMedia_get_keys (st : Store) (m : MediaNode) (mid url : String)
    (h1 : m.id = some mid) (h2 : mid ≠ "") (h3 : urlOfMedia m = some url)
    (h4 : url ≠ "") :
    ∀ k, k ∈ mediaKeys m → storeGet (insertMedia st m) k = some url := by
  intro k hk
  have hins : insertMedia st m =
      storeSet (storeSet (storeSet st mid url) (replaceFirstS mid "gid://") url)
        (numericTailS mid) url := by
    simp [insertMedia, h1, h2, h3, h4]
  have hkeys : mediaKeys m = [mid, replaceFirstS mid "gid://", numericTailS mid] := by
    simp [mediaKeys, h1, h2, h3, h4]
  rw [hkeys] at hk
  simp only [List.mem_cons, List.mem_singleton, List.not_mem_nil, or_false] at hk
  rw [hins]
  apply tripleInsertGet
  rcases hk with h | h | h
  · exact Or.inl h.symm
  · exact Or.inr (Or.inl h.symm)
  · exact Or.inr (Or.inr h.symm)

/-- Inserting a media node leaves every key it does not write unchanged. -/
theorem insertMedia_get_other (st : Store) (m : MediaNode) (k : String)
    (h : keysContain m k = false) :
    storeGet (insertMedia st m) k = storeGet st k := by
  cases him : m.id with
  | none => simp [insertMedia, him]
  | some mid =>
    by_cases h2 : mid = ""
    · simp [insertMedia, him, h2]
    · cases hurl : urlOfMedia m with
      | none => simp [insertMedia, him, h2, hurl]
      | some url =>
        by_cases h4 : url = ""
        · simp [insertMedia, him, h2, hurl, h4]
        · have hkeys : mediaKeys m = [mid, replaceFirstS mid "gid://", numericTailS mid] := by
            simp [mediaKeys, him, h2, hurl, h4]
          simp only [keysContain, hkeys, List.any_cons, List.any_nil,
            Bool.or_eq_false_iff, decide_eq_false_iff_not] at h
          simp [insertMedia, him, h2, hurl, h4, storeSet, storeGet, h.1, h.2.1, h.2.2]

/-- Folding further media nodes over the index preserves every key none of
them writes. -/
theorem foldl_insert_preserve (post : List MediaNode) (k : String)
    (h : ∀ n, n ∈ post → keysContain n k = false) :
    ∀ st : Store, storeGet (post.foldl insertMedia st) k = storeGet st k := by
  induction post with
  | nil => intro st; rfl
  | cons n ns ih =>
    intro st
    rw [List.foldl_cons, ih (fun x hx => h x (List.mem_cons_of_mem _ hx))]
    exact insertMedia_get_other st n k (h n (List.mem_cons_self _ _))

/-- An inserted media node tests positive for each of its three keys. -/
theorem keysContain_self (m : MediaNode) (mid url : String)
    (h1 : m.id = some mid) (h2 : mid ≠ "") (h3 : urlOfMedia m = some url)
    (h4 : url ≠ "") :
    keysContain m mid = true ∧ keysContain m (replaceFirstS mid "gid://") = true ∧
      keysContain m (numericTailS mid) = true := by
  have hkeys : mediaKeys m = [mid, replaceFirstS mid "gid://", numericTailS mid] := by
    simp [mediaKeys, h1, h2, h3, h4]
  refine ⟨?_, ?_, ?_⟩ <;> simp [keysContain, hkeys]

/-- Claim C1: every media asset indexed by fetchAllMedia with a resolvable
URL has its three derived lookup keys (full id, `gid://`-stripped id,
trailing numeric segment) all mapped to its URL by the built index,
provided no later-inserted asset overwrites one of those keys; and when
two distinct assets collide on the numeric-only key, the later-inserted
asset's URL wins for that key. -/
theorem claim1_media_index_three_keys :
    (∀ (pre post : List MediaNode) (m : MediaNode) (mid url : String),
      m.id = some mid → mid ≠ "" → urlOfMedia m = some url → url ≠ "" →
      (∀ n, n ∈ post → ∀ k, keysContain m k = true → keysContain n k = false) →
      storeGet (buildMediaIndex (pre ++ m :: post)) mid = some url ∧
        storeGet (buildMediaIndex (pre ++ m :: post)) (replaceFirstS mid "gid://") = some url ∧
        storeGet (buildMediaIndex (pre ++ m :: post)) (numericTailS mid) = some url) ∧
    (∀ (l1 l2 l3 : List MediaNode) (a b : MediaNode) (aid aurl bid burl : String),
      a.id = some aid → aid ≠ "" → urlOfMedia a = some aurl → aurl ≠ "" →
      b.id = some bid → bid ≠ "" → urlOfMedia b = some burl → burl ≠ "" →
      numericTailS aid = numericTailS bid →
      (∀ n, n ∈ l3 → keysContain n (numericTailS bid) = false) →
      storeGet (buildMediaIndex (l1 ++ a :: (l2 ++ b :: l3))) (numericTailS bid) = some burl) := by
  constructor
  · intro pre post m mid url h1 h2 h3 h4 hpost
    obtain ⟨hm, hc, hn⟩ := keysContain_self m mid url h1 h2 h3 h4
    have hkeys : mediaKeys m = [mid, replaceFirstS mid "gid://", numericTailS mid] := by
      simp [mediaKeys, h1, h2, h3, h4]
    have main : ∀ k, keysContain m k = true →
        storeGet (buildMediaIndex (pre ++ m :: post)) k =
          storeGet (insertMedia (pre.foldl insertMedia storeEmpty) m) k := by
      intro k hk
      unfold buildMediaIndex
      rw [List.foldl_append, List.foldl_cons]
      exact foldl_insert_preserve post k (fun n hn2 => hpost n hn2 k hk) _
    refine ⟨?_, ?_, ?_⟩
    · rw [main mid hm]
      exact insertMedia_get_keys _ m mid url h1 h2 h3 h4 mid (by rw [hkeys]; simp)
    · rw [main _ hc]
      exact insertMedia_get_keys _ m mid url h1 h2 h3 h4 _ (by rw [hkeys]; simp)
    · rw [main _ hn]
      exact insertMedia_get_keys _ m mid url h1 h2 h3 h4 _ (by rw [hkeys]; simp)
  · intro l1 l2 l3 a b aid aurl bid burl ha1 ha2 ha3 ha4 hb1 hb2 hb3 hb4 hnum hl3
    have hkeysb : mediaKeys b = [bid, replaceFirstS bid "gid://", numericTailS bid] := by
      simp [mediaKeys, hb1, hb2, hb3, hb4]
    unfold buildMediaIndex
    rw [List.foldl_append, List.foldl_cons, List.foldl_append, List.foldl_cons]
    rw [foldl_insert_preserve l3 _ hl3]
    exact insertMedia_get_keys _ b bid burl hb1 hb2 hb3 hb4 _ (by rw [hkeysb]; simp)

/-- Witness for claim C1: index built from the colliding assets
`mediaNodeB` then `mediaNodeA` resolves all three of A's keys to A's URL,
and the shared numeric key `42` resolves to the later-inserted A. -/
theorem claim1_media_index_three_keys_witness :
    storeGet (buildMediaIndex [mediaNodeB, mediaNodeA]) "gid://shopify/MediaImage/42" =
        some "https://x/42.png" ∧
      storeGet (buildMediaIndex [mediaNodeB, mediaNodeA]) "shopify/MediaImage/42" =
        some "https://x/42.png" ∧
      storeGet (buildMediaIndex [mediaNodeB, mediaNodeA]) "42" = some "https://x/42.png" := by
  have h := (claim1_media_index_three_keys.1) [mediaNodeB] [] mediaNodeA
    "gid://shopify/MediaImage/42" "https://x/42.png" (by decide) (by decide) (by decide)
    (by decide) (fun n hn => absurd hn (List.not_mem_nil n))
  refine ⟨?_, ?_, ?_⟩
  · exact h.1
  · have := h.2.1
    rw [show replaceFirstS "gid://shopify/MediaImage/42" "gid://" = "shopify/MediaImage/42"
      from by decide] at this
    exact this
  · have := h.2.2
    rw [show numericTailS "gid://shopify/MediaImage/42" = "42" from by decide] at this
    exact this

/-! ## Helper lemmas about lookup chaining -/

/-- Chaining of truthy-guarded assignments is associative. -/
theorem orElseT_assoc (a b c : Option String) :
    orElseT (orElseT a b) c = orElseT a (orElseT b c) := by
  unfold orElseT
  by_cases h : jsTruthy a = true <;> simp [h]

/-- A chain of length at least two starts with one truthy-guarded step. -/
theorem firstHit_cons (x y : Option String) (rest : List (Option String)) :
    firstHit (x :: y :: rest) = orElseT x (firstHit (y :: rest)) := rfl

/-- A one-element chain is its element. -/
theorem firstHit_single (x : Option String) : firstHit [x] = x := rfl

/-- Claim C2, amended: scalar resolution tries the local index with the id
as-is first; on a falsy result it tries the global index with the id
as-is, then `gid://`-stripped, then numeric-only; only then does it fall
back to the local index with the stripped and numeric-only forms — the
resolved value is the first truthy hit in that flattened order (when no
global cache is present, only the three local lookups happen, in claim
order), and a hit rewrites the metafield with that URL. -/
theorem claim2_scalar_lookup_order_amended :
    (∀ (mm c : Store) (mediaId : String),
      lookupChain mm (some c) mediaId =
        firstHit [storeGet mm mediaId, storeGet c mediaId,
          storeGet c (replaceFirstS mediaId "gid://"), storeGet c (numericTailS mediaId),
          storeGet mm (replaceFirstS mediaId "gid://"), storeGet mm (numericTailS mediaId)]) ∧
    (∀ (mm : Store) (mediaId : String),
      lookupChain mm none mediaId =
        firstHit [storeGet mm mediaId, storeGet mm (replaceFirstS mediaId "gid://"),
          storeGet mm (numericTailS mediaId)]) ∧
    (∀ (mm : Store) (mc : Option Store) (m : Metafield) (u : String),
      m.type = "file_reference" → m.value ≠ "" →
      lookupChain mm mc m.value = some u → u ≠ "" →
      processMetafield mm mc m =
        { m with originalValue := some m.value, value := u, processed := true }) := by
  refine ⟨?_, ?_, ?_⟩
  · intro mm c mediaId
    simp only [lookupChain, firstHit_cons, firstHit_single, orElseT_assoc]
  · intro mm mediaId
    simp only [lookupChain, firstHit_cons, firstHit_single, orElseT_assoc]
  · intro mm mc m u ht hv hchain hu
    have hne : ¬(m.type = "list.file_reference" ∧ m.value ≠ "") := by
      rw [ht]; rintro ⟨h, -⟩; exact absurd h (by decide)
    simp [processMetafield, hne, ht, hv, hchain, hu]

/-- Counterexample for claim C2 as stated: with the per-product index
holding only video 7 (so the raw image id hits locally only via its
numeric key) and the global index holding image 7 under its full id, the
service resolves the metafield to the global image URL, while the
spec-claimed local-first order would resolve it to the local video URL. -/
theorem claim2_scalar_lookup_order_cx :
    processMetafields [mfCx] [] [videoNodeCx] (some globalCx) none =
      [{ mfCx with
          originalValue := some "gid://shopify/MediaImage/7"
          value := "https://img/7.png"
          processed := true }] ∧
    lookupChainSpecOrder localCx (some globalCx) "gid://shopify/MediaImage/7" =
      some "https://vid/7.mp4" ∧
    ("https://img/7.png" : String) ≠ "https://vid/7.mp4" := by
  refine ⟨by decide, by decide, by decide⟩

/-- Witness for the amended claim C2: at the counterexample input the
lookup chain's first truthy hit is the global URL and the processed
metafield carries it. -/
theorem claim2_scalar_lookup_order_witness :
    processMetafield localCx (some globalCx) mfCx =
      { mfCx with
        originalValue := some mfCx.value
        value := "https://img/7.png"
        processed := true } :=
  (claim2_scalar_lookup_order_amended.2.2) localCx (some globalCx) mfCx "https://img/7.png"
    (by decide) (by decide) (by decide) (by decide)

/-! ## Helper lemmas for the product fetch strategies -/

/-- Appending on the left preserves substring containment. -/
theorem containsSubL_append (pat l1 l2 : List Char) (h : containsSubL pat l2 = true) :
    containsSubL pat (l1 ++ l2) = true := by
  induction l1 with
  | nil => simpa using h
  | cons c cs ih =>
    simp only [List.cons_append, containsSubL, Bool.or_eq_true]
    exact Or.inr ih

/-- String append concatenates the underlying character lists. -/
theorem strDataAppend (s t : String) : (s ++ t).data = s.data ++ t.data := by
  cases s; cases t; rfl

/-- Given enough scripted detail responses, the enrichment loop succeeds
and pairs each enumerated product with its response in order. -/
theorem enrichLoop_complete (ps : List SProduct) :
    ∀ rs : List (Resp (Option PDetail)), ps.length ≤ rs.length →
      enrichLoop ps rs = (FetchOut.ok (List.zipWith detailStep ps rs), rs.drop ps.length) := by
  induction ps with
  | nil => intro rs _; simp [enrichLoop]
  | cons p ps ih =>
    intro rs h
    cases rs with
    | nil => simp at h
    | cons r rs' =>
      have h' : ps.length ≤ rs'.length := by simpa using h
      simp [enrichLoop, ih rs' h']

/-- Claim C3: a cost-limit error signature on the rich paginated query
makes fetchAllProducts fall back to the two-phase strategy; any other
thrown query error propagates; and in the two-phase strategy the
enrichment loop keeps a basic product unchanged on every per-product
detail failure (caught transport error, errors payload or null product),
preserves ids on success, and outputs exactly the enumerated products. -/
theorem claim3_cost_fallback :
    (∀ (rich basic : List (Resp (PageData SProduct))) (detail : List (Resp (Option PDetail)))
      (m : String),
      (gqlPaginate [] none rich).1 = FetchOut.err m → isCostMsg m = true →
      fetchAllProducts rich basic detail = fetchProductsSimplified basic detail) ∧
    (∀ (rich basic : List (Resp (PageData SProduct))) (detail : List (Resp (Option PDetail)))
      (m : String),
      (gqlPaginate [] none rich).1 = FetchOut.err m → isCostMsg m = false →
      fetchAllProducts rich basic detail = FetchOut.err m) ∧
    (∀ errs : List GqlErr,
      containsSub (renderErrs errs) "MAX_COST_EXCEEDED" = true ∨
        containsSub (renderErrs errs) "cost limit" = true →
      isCostMsg ("GraphQL Error: " ++ renderErrs errs) = true) ∧
    (∀ (ps : List SProduct) (rs : List (Resp (Option PDetail))), ps.length ≤ rs.length →
      enrichLoop ps rs = (FetchOut.ok (List.zipWith detailStep ps rs), rs.drop ps.length)) ∧
    (∀ (p : SProduct) (m : String), detailStep p (Resp.transportErr m) = p) ∧
    (∀ (p : SProduct) (errs : List GqlErr), detailStep p (Resp.gqlErrors errs) = p) ∧
    (∀ p : SProduct, detailStep p (Resp.ok none) = p) ∧
    (∀ (p : SProduct) (d : PDetail), (detailStep p (Resp.ok (some d))).id = p.id) := by
  refine ⟨?_, ?_, ?_, enrichLoop_complete, fun _ _ => rfl, fun _ _ => rfl, fun _ => rfl, ?_⟩
  · intro rich basic detail m hp hc
    rcases hpair : gqlPaginate ([] : List SProduct) none rich with ⟨o, rest⟩
    rw [hpair] at hp
    simp at hp
    simp [fetchAllProducts, hpair, hp, hc]
  · intro rich basic detail m hp hc
    rcases hpair : gqlPaginate ([] : List SProduct) none rich with ⟨o, rest⟩
    rw [hpair] at hp
    simp at hp
    simp [fetchAllProducts, hpair, hp, hc]
  · intro errs h
    simp only [isCostMsg, containsSub, Bool.or_eq_true]
    rcases h with h | h
    · left
      rw [strDataAppend]
      exact containsSubL_append _ _ _ h
    · right
      rw [strDataAppend]
      exact containsSubL_append _ _ _ h
  · intro p d
    simp [detailStep, enrich]

/-- Witness for claim C3: the concrete cost-limit script triggers the
fallback, the unrelated error propagates, and the concrete enrichment run
keeps the failed product and enriches the other. -/
theorem claim3_cost_fallback_witness :
    fetchAllProducts richCostScript basicCx detailCx =
        fetchProductsSimplified basicCx detailCx ∧
      fetchAllProducts richOtherScript basicCx detailCx =
        FetchOut.err "GraphQL Error: boom" ∧
      enrichLoop [pA, pB] detailCx =
        (FetchOut.ok (List.zipWith detailStep [pA, pB] detailCx), detailCx.drop 2) ∧
      (detailStep pB (Resp.ok (some dCx))).id = pB.id := by
  refine ⟨?_, ?_, ?_, ?_⟩
  · exact claim3_cost_fallback.1 richCostScript basicCx detailCx
      "GraphQL Error: Query cost exceeded: MAX_COST_EXCEEDED" (by decide) (by decide)
  · exact claim3_cost_fallback.2.1 richOtherScript basicCx detailCx
      "GraphQL Error: boom" (by decide) (by decide)
  · exact claim3_cost_fallback.2.2.2.1 [pA, pB] detailCx (by decide)
  · exact claim3_cost_fallback.2.2.2.2.2.2.2 pB dCx

/-! ## Throttling behaviour (claim C4) -/

/-- Counterexample for claim C4 as stated: the media fetch loop has no
throttle handling, so a script that throttles once and then delivers a
page makes fetchAllMedia throw internally and return the empty fallback
index — the throttled page's item appears zero times, not exactly once. -/
theorem claim4_throttle_retry_cx :
    fetchAllMedia none mediaThrScript =
        ⟨none, FetchOut.ok storeEmpty, [Resp.ok ⟨[mediaNodeA], false, none⟩]⟩ ∧
      storeGet storeEmpty "gid://shopify/MediaImage/42" = none := by
  exact ⟨by decide, rfl⟩

/-- Claim C4, amended: only the collections fetch loop and the
per-collection products fetch loop retry after a THROTTLED errors payload,
consuming the response but leaving the accumulated items and the cursor
unchanged (so a once-throttled page contributes its items exactly once, as
the end-to-end collections run shows); the media fetch loop treats every
errors payload — throttled included — as a thrown fatal error. -/
theorem claim4_throttle_retry_amended :
    (∀ (α : Type) (acc : List α) (after : Option String) (errs : List GqlErr)
      (s : List (Resp (Option (PageData α)))),
      errs.any isThrottled = true →
      collLoop acc after (Resp.gqlErrors errs :: s) = collLoop acc after s) ∧
    (∀ (α : Type) (acc : List α) (after : Option String) (errs : List GqlErr)
      (s : List (Resp (Option (PageData α)))),
      errs.any isThrottled = true →
      pfcLoop acc after (Resp.gqlErrors errs :: s) = pfcLoop acc after s) ∧
    (∀ (α : Type) (i1 i2 : List α) (cur : Option String) (errs : List GqlErr),
      errs.any isThrottled = true →
      fetchAllCollections
          [Resp.ok (some ⟨i1, true, cur⟩), Resp.gqlErrors errs,
            Resp.ok (some ⟨i2, false, none⟩)] =
        FetchOut.ok (i1 ++ i2)) ∧
    (∀ (cache : Store) (after : Option String) (errs : List GqlErr)
      (s : List (Resp (PageData MediaNode))),
      mediaLoop cache after (Resp.gqlErrors errs :: s) =
        (FetchOut.err ("GraphQL Error: " ++ renderErrs errs), s)) := by
  refine ⟨?_, ?_, ?_, ?_⟩
  · intro α acc after errs s h
    simp [collLoop, h]
  · intro α acc after errs s h
    simp [pfcLoop, h]
  · intro α i1 i2 cur errs h
    simp [fetchAllCollections, collLoop, h]
  · intro cache after errs s
    rfl

/-- Witness for the amended claim C4: a concrete throttled response is
skipped by both retrying loops with state unchanged, and the concrete
collections run with one throttle on page two yields both pages' items
exactly once. -/
theorem claim4_throttle_retry_witness :
    collLoop ([] : List Nat) none
        (Resp.gqlErrors [thrGqlErr] :: [Resp.ok (some ⟨[5], false, none⟩)]) =
      collLoop [] none [Resp.ok (some ⟨[5], false, none⟩)] ∧
    pfcLoop ([] : List Nat) none
        (Resp.gqlErrors [thrGqlErr] :: [Resp.ok (some ⟨[5], false, none⟩)]) =
      pfcLoop [] none [Resp.ok (some ⟨[5], false, none⟩)] ∧
    fetchAllCollections
        [Resp.ok (some ⟨[1, 2], true, some "c1"⟩), Resp.gqlErrors [thrGqlErr],
          Resp.ok (some ⟨[3], false, none⟩)] =
      FetchOut.ok [1, 2, 3] := by
  refine ⟨?_, ?_, ?_⟩
  · exact claim4_throttle_retry_amended.1 Nat [] none [thrGqlErr] _ (by decide)
  · exact claim4_throttle_retry_amended.2.1 Nat [] none [thrGqlErr] _ (by decide)
  · exact claim4_throttle_retry_amended.2.2.1 Nat [1, 2] [3] (some "c1") [thrGqlErr] (by decide)

/-! ## Page-count ceiling (claim C5) -/

/-- The inventory loop's final page count is bounded by the remaining fuel
and reaches the bound exactly when the loop stops with `hasNextPage` still
true. -/
theorem invLoop_bound (fuel : Nat) :
    ∀ (oracle : Nat → Resp (Option InvPage)) (acc : List InvRec) (pc : Nat)
      (after : Option String),
      (invLoop oracle acc pc fuel after).2.2 ≤ pc + fuel ∧
        ((invLoop oracle acc pc fuel after).2.1 = true →
          (invLoop oracle acc pc fuel after).2.2 = pc + fuel) := by
  induction fuel with
  | zero => intro oracle acc pc after; exact ⟨Nat.le_refl pc, fun _ => rfl⟩
  | succ n ih =>
    intro oracle acc pc after
    cases horacle : oracle (pc + 1) with
    | transportErr m => simp [invLoop, horacle]
    | gqlErrors errs => simp [invLoop, horacle]
    | ok d =>
      cases d with
      | none => simp [invLoop, horacle]
      | some pd =>
        by_cases hnext : pd.hasNextPage = true
        · have := ih oracle (acc ++ pd.edges.map toInvRec) (pc + 1) pd.endCursor
          simp only [invLoop, horacle, hnext, if_true]
          constructor
          · calc (invLoop oracle (acc ++ pd.edges.map toInvRec) (pc + 1) n pd.endCursor).2.2
                ≤ pc + 1 + n := this.1
              _ = pc + (n + 1) := by omega
          · intro h
            rw [this.2 h]
            omega
        · simp [invLoop, horacle, hnext]

/-- Counterexample for claim C5 as stated: the products pagination loop
has no page-count ceiling — against sixty consecutive pages all reporting
`hasNextPage = true` it consumes all sixty responses (far past the
50-page ceiling) and is still iterating, with no truncation outcome. -/
theorem claim5_page_ceiling_cx :
    gqlPaginate ([] : List SProduct) none alwaysProductPages = (FetchOut.noResp, []) := by
  decide

/-- Claim C5, amended: only fetchInventoryLevels carries the hard page
ceiling — its loop performs at most `maxPages = 50` iterations against
any upstream, and whenever it stops with `hasNextPage` still true the
truncation warning fires. -/
theorem claim5_page_ceiling_amended :
    ∀ oracle : Nat → Resp (Option InvPage),
      (fetchInventoryLevels oracle).pageCount ≤ 50 ∧
        ((fetchInventoryLevels oracle).hasNextAtEnd = true →
          (fetchInventoryLevels oracle).truncWarning = true) := by
  intro oracle
  rcases hinv : invLoop oracle [] 0 50 none with ⟨recs, hn, pc⟩
  have hb := invLoop_bound 50 oracle [] 0 none
  rw [hinv] at hb
  simp only [fetchInventoryLevels, hinv]
  constructor
  · simpa using hb.1
  · intro h
    have hn50 : hn = true := h
    have hpc : pc = 50 := by simpa using hb.2 (by simpa using hn50)
    simp [hpc, hn50]

/-- Witness for the amended claim C5: against an upstream that always
reports another page, the inventory fetch stops at page count at most 50
and its truncation warning fires. -/
theorem claim5_page_ceiling_witness :
    (fetchInventoryLevels alwaysInvOracle).pageCount ≤ 50 ∧
      (fetchInventoryLevels alwaysInvOracle).truncWarning = true :=
  ⟨(claim5_page_ceiling_amended alwaysInvOracle).1,
    (claim5_page_ceiling_amended alwaysInvOracle).2 (by decide)⟩

/-! ## Partial results on fatal errors (claim C6) -/

/-- Counterexample for claim C6 as stated: with one good inventory page
followed by a transport failure, fetchInventoryLevels returns the first
page's records as an ordinary successful result (its return type has no
failure channel at all), and fetchProductsForCollection swallows a
transport failure into an ordinary empty result. -/
theorem claim6_partial_results_cx :
    fetchInventoryLevels invOracleCx = ⟨[toInvRec invNodeCx], false, 2, false⟩ ∧
      fetchProductsForCollection
          ([Resp.transportErr "network down"] : List (Resp (Option (PageData Nat)))) =
        FetchOut.ok [] := by
  exact ⟨by decide, by decide⟩

/-- Claim C6, amended: a fatal (non-throttling) error partway through
pagination is propagated by most fetches — fetchAllCollections rethrows
it — but fetchInventoryLevels catches it inside the loop, stops, and
returns the records accumulated so far as a normal result, and
fetchProductsForCollection catches it and returns an empty list. -/
theorem claim6_partial_results_amended :
    (∀ (oracle : Nat → Resp (Option InvPage)) (acc : List InvRec) (pc fuel : Nat)
      (after : Option String) (m : String),
      oracle (pc + 1) = Resp.transportErr m →
      invLoop oracle acc pc (fuel + 1) after = (acc, false, pc + 1)) ∧
    (∀ (oracle : Nat → Resp (Option InvPage)) (acc : List InvRec) (pc fuel : Nat)
      (after : Option String) (errs : List GqlErr),
      oracle (pc + 1) = Resp.gqlErrors errs →
      invLoop oracle acc pc (fuel + 1) after = (acc, false, pc + 1)) ∧
    (∀ (α : Type) (script : List (Resp (Option (PageData α)))) (m : String)
      (rest : List (Resp (Option (PageData α)))),
      pfcLoop ([] : List α) none script = (FetchOut.err m, rest) →
      fetchProductsForCollection script = FetchOut.ok []) ∧
    (∀ (α : Type) (script : List (Resp (Option (PageData α)))) (m : String)
      (rest : List (Resp (Option (PageData α)))),
      collLoop ([] : List α) none script = (FetchOut.err m, rest) →
      fetchAllCollections script = FetchOut.err m) := by
  refine ⟨?_, ?_, ?_, ?_⟩
  · intro oracle acc pc fuel after m h
    simp [invLoop, h]
  · intro oracle acc pc fuel after errs h
    simp [invLoop, h]
  · intro α script m rest h
    simp [fetchProductsForCollection, h]
  · intro α script m rest h
    simp [fetchAllCollections, h]

/-- Witness for the amended claim C6: the concrete failing page stops the
inventory loop with the accumulated records, the per-collection fetch
swallows the error into an empty list, and the collections fetch
propagates it. -/
theorem claim6_partial_results_witness :
    invLoop invOracleCx [toInvRec invNodeCx] 1 49 (some "c1") =
        ([toInvRec invNodeCx], false, 2) ∧
      fetchProductsForCollection
          ([Resp.transportErr "network down"] : List (Resp (Option (PageData Nat)))) =
        FetchOut.ok [] ∧
      fetchAllCollections
          ([Resp.transportErr "network down"] : List (Resp (Option (PageData Nat)))) =
        FetchOut.err "Shopify GraphQL query failed: network down" := by
  refine ⟨?_, ?_, ?_⟩
  · exact claim6_partial_results_amended.1 invOracleCx [toInvRec invNodeCx] 1 48
      (some "c1") "network down" (by decide)
  · exact claim6_partial_results_amended.2.2.1 Nat [Resp.transportErr "network down"]
      "Shopify GraphQL query failed: network down" [] (by decide)
  · exact claim6_partial_results_amended.2.2.2 Nat [Resp.transportErr "network down"]
      "Shopify GraphQL query failed: network down" [] (by decide)

/-! ## List-reference resolution (claims C7 and C8) -/

/-- Claim C7: a list reference whose raw value parses as a JSON array of
ids is rewritten to the parallel array of per-element resolutions, of the
same length, with the field marked processed regardless of per-element
hits; each element with no truthy lookup hit passes through unchanged and
each element with a truthy hit becomes that URL. -/
theorem claim7_list_ref_elementwise :
    (∀ (mm : Store) (mc : Option Store) (m : Metafield) (ids : List String),
      m.type = "list.file_reference" → m.value ≠ "" →
      parseJsonStrings m.value = some ids →
      processMetafield mm mc m =
        { m with
          originalValue := some m.value
          value := stringifyStrings (ids.map (resolveListElem mm mc))
          processed := true }) ∧
    (∀ (mm : Store) (mc : Option Store) (ids : List String),
      (ids.map (resolveListElem mm mc)).length = ids.length) ∧
    (∀ (mm : Store) (mc : Option Store) (i : String),
      jsTruthy (lookupChain mm mc i) = false → resolveListElem mm mc i = i) ∧
    (∀ (mm : Store) (mc : Option Store) (i u : String),
      lookupChain mm mc i = some u → u ≠ "" → resolveListElem mm mc i = u) := by
  refine ⟨?_, ?_, ?_, ?_⟩
  · intro mm mc m ids ht hv hp
    simp [processMetafield, ht, hv, hp]
  · intro mm mc ids
    simp
  · intro mm mc i h
    cases hlc : lookupChain mm mc i with
    | none => simp [resolveListElem, hlc]
    | some u =>
      rw [hlc] at h
      simp [jsTruthy] at h
      simp [resolveListElem, hlc, h]
  · intro mm mc i u hlc hu
    simp [resolveListElem, hlc, hu]

/-- Witness for claim C7: over an index holding only media image 7, the
two-element list resolves image 7 to its URL and passes image 8 through,
with the field marked processed. -/
theorem claim7_list_ref_elementwise_witness :
    processMetafield globalCx none listMfCx =
      { listMfCx with
        originalValue := some listMfCx.value
        value := stringifyStrings
          (["gid://shopify/MediaImage/7", "gid://shopify/MediaImage/8"].map
            (resolveListElem globalCx none))
        processed := true } ∧
    resolveListElem globalCx none "gid://shopify/MediaImage/8" =
      "gid://shopify/MediaImage/8" ∧
    resolveListElem globalCx none "gid://shopify/MediaImage/7" = "https://img/7.png" := by
  refine ⟨?_, ?_, ?_⟩
  · exact claim7_list_ref_elementwise.1 globalCx none listMfCx
      ["gid://shopify/MediaImage/7", "gid://shopify/MediaImage/8"]
      (by decide) (by decide) (by decide)
  · exact claim7_list_ref_elementwise.2.2.1 globalCx none
      "gid://shopify/MediaImage/8" (by decide)
  · exact claim7_list_ref_elementwise.2.2.2 globalCx none
      "gid://shopify/MediaImage/7" "https://img/7.png" (by decide) (by decide)

/-- Claim C8: a list reference whose raw value fails to parse is returned
entirely unmodified — value unchanged and `processed` left at its incoming
default — and, the embedding being a total function, no exception ever
reaches the caller. -/
theorem claim8_malformed_json :
    ∀ (mm : Store) (mc : Option Store) (m : Metafield),
      m.type = "list.file_reference" → parseJsonStrings m.value = none →
      processMetafield mm mc m = m := by
  intro mm mc m ht hp
  by_cases hv : m.value = ""
  · have hne : ¬(m.type = "file_reference" ∧ m.value ≠ "") := by
      rintro ⟨-, h⟩; exact h hv
    simp [processMetafield, ht, hv, hne]
  · simp [processMetafield, ht, hv, hp]

/-- Witness for claim C8: the metafield with value `not json` comes back
unchanged. -/
theorem claim8_malformed_json_witness :
    processMetafield globalCx none badMfCx = badMfCx :=
  claim8_malformed_json globalCx none badMfCx (by decide) (by decide)

/-! ## Media catalog fail-open and cache lifecycle (claims C9 and C10) -/

/-- Claim C9: any thrown failure during index construction (transport
failure or GraphQL errors payload on any page) makes fetchAllMedia return
the empty index as an ordinary value; no call of fetchAllMedia ever
propagates a thrown error. -/
theorem claim9_media_fail_open :
    (∀ (script : List (Resp (PageData MediaNode))) (m : String)
      (rest : List (Resp (PageData MediaNode))),
      mediaLoop storeEmpty none script = (FetchOut.err m, rest) →
      fetchAllMedia none script = ⟨none, FetchOut.ok storeEmpty, rest⟩) ∧
    (∀ (gc : Option Store) (script : List (Resp (PageData MediaNode))) (m : String),
      (fetchAllMedia gc script).result ≠ FetchOut.err m) := by
  constructor
  · intro script m rest h
    simp [fetchAllMedia, h]
  · intro gc script m
    cases gc with
    | some c => simp [fetchAllMedia]
    | none =>
      rcases hml : mediaLoop storeEmpty none script with ⟨o, rest⟩
      cases o <;> simp [fetchAllMedia, hml]

/-- Witness for claim C9: the script failing on its first request yields
the empty index, and a cached call never yields a thrown error. -/
theorem claim9_media_fail_open_witness :
    fetchAllMedia none failScript = ⟨none, FetchOut.ok storeEmpty, []⟩ ∧
      (fetchAllMedia (some globalCx) failScript).result ≠
        FetchOut.err "Shopify GraphQL query failed: net down" := by
  constructor
  · exact claim9_media_fail_open.1 failScript "Shopify GraphQL query failed: net down" []
      (by decide)
  · exact claim9_media_fail_open.2 (some globalCx) failScript
      "Shopify GraphQL query failed: net down"

/-- Claim C10: a failed build does not assign the process-wide cache, so a
later call re-runs the fetch and can build the real index; a successful
build assigns the cache, and every later call with the cache present
returns the built index while consuming no scripted response at all. -/
theorem claim10_media_cache_assignment :
    (∀ (script : List (Resp (PageData MediaNode))) (m : String)
      (rest : List (Resp (PageData MediaNode))),
      mediaLoop storeEmpty none script = (FetchOut.err m, rest) →
      (fetchAllMedia none script).newGlobal = none) ∧
    (∀ (s1 : List (Resp (PageData MediaNode))) (m : String)
      (r1 s2 : List (Resp (PageData MediaNode))) (c : Store)
      (r2 : List (Resp (PageData MediaNode))),
      mediaLoop storeEmpty none s1 = (FetchOut.err m, r1) →
      mediaLoop storeEmpty none s2 = (FetchOut.ok c, r2) →
      fetchAllMedia ((fetchAllMedia none s1).newGlobal) s2 = ⟨some c, FetchOut.ok c, r2⟩) ∧
    (∀ (s : List (Resp (PageData MediaNode))) (c : Store)
      (rest : List (Resp (PageData MediaNode))),
      mediaLoop storeEmpty none s = (FetchOut.ok c, rest) →
      (fetchAllMedia none s).newGlobal = some c ∧
        ∀ s2 : List (Resp (PageData MediaNode)),
          fetchAllMedia (some c) s2 = ⟨some c, FetchOut.ok c, s2⟩) := by
  refine ⟨?_, ?_, ?_⟩
  · intro script m rest h
    simp [fetchAllMedia, h]
  · intro s1 m r1 s2 c r2 h1 h2
    simp [fetchAllMedia, h1, h2]
  · intro s c rest h
    exact ⟨by simp [fetchAllMedia, h], fun s2 => rfl⟩

/-- Witness for claim C10: after the failing script the cache stays unset
and the retry builds the index from `mediaNodeA`; after the successful
script the cache holds that index and a cached call consumes nothing even
with a failing script pending. -/
theorem claim10_media_cache_assignment_witness :
    (fetchAllMedia none failScript).newGlobal = none ∧
      fetchAllMedia ((fetchAllMedia none failScript).newGlobal) okMediaScript =
        ⟨some (buildMediaIndex [mediaNodeA]), FetchOut.ok (buildMediaIndex [mediaNodeA]), []⟩ ∧
      (fetchAllMedia none okMediaScript).newGlobal = some (buildMediaIndex [mediaNodeA]) ∧
      fetchAllMedia (some (buildMediaIndex [mediaNodeA])) failScript =
        ⟨some (buildMediaIndex [mediaNodeA]), FetchOut.ok (buildMediaIndex [mediaNodeA]),
          failScript⟩ := by
  refine ⟨?_, ?_, ?_, ?_⟩
  · exact claim10_media_cache_assignment.1 failScript
      "Shopify GraphQL query failed: net down" [] (by decide)
  · exact claim10_media_cache_assignment.2.1 failScript
      "Shopify GraphQL query failed: net down" [] okMediaScript
      (buildMediaIndex [mediaNodeA]) [] (by decide) (by decide)
  · exact (claim10_media_cache_assignment.2.2 okMediaScript
      (buildMediaIndex [mediaNodeA]) [] (by decide)).1
  · exact (claim10_media_cache_assignment.2.2 okMediaScript
      (buildMediaIndex [mediaNodeA]) [] (by decide)).2 failScript
